import Mathlib

/-!
# Order notification functions (`functions/index.js`)

A shallow embedding of the two cloud functions of `functions/index.js`:

* `onOrderCreatedOrUpdated` (lines 14-146): classifies a write on `orders/{orderId}`,
  reads the `deviceTokens` collection, sends one multicast and deletes the registrations
  of the tokens whose delivery failed;
* `cleanupExpiredTokens` (lines 152-193): probes every registration and deletes the ones
  whose probe is rejected with an invalid-token code.

The document store and the push transport are external.  The collection content is passed
as explicit state, the transport is a function argument, and every external call a run
makes is recorded in an effect trace.  Reads and commits of the store are taken to
succeed; a rejected multicast and a document path the store client refuses end the run
with an error.  `String.prototype.toLowerCase` is a function argument as well, so the
theorems hold for the real Unicode lowercasing.
-/

namespace OrderNotifications

/-! ## JavaScript values -/

/-- The JavaScript values a document field can hold in this model.  Numbers are restricted
to integers. -/
inductive JsValue where
  | undefined
  | null
  | bool (b : Bool)
  | number (n : Int)
  | string (s : String)
  deriving DecidableEq, Repr

/-- Template-literal interpolation of a value. -/
def JsValue.interpolate : JsValue → String
  | .undefined => "undefined"
  | .null => "null"
  | .bool true => "true"
  | .bool false => "false"
  | .number n => toString n
  | .string s => s

/-- The errors a run can end with. -/
inductive JsError where
  /-- Calling `.toLowerCase()` on a value that is not a string. -/
  | typeError
  /-- Calling `doc(path)` with a path that is not a string, is empty, holds `//`, or does
  not point to a document. -/
  | invalidDocumentPath
  /-- The push transport rejected the whole request. -/
  | transportRejected (reason : String)
  deriving DecidableEq, Repr

/-- The expression `v.toLowerCase()`: defined on strings only. -/
def callToLowerCase (toLowerCase : String → String) : JsValue → Except JsError String
  | .string s => .ok (toLowerCase s)
  | _ => .error .typeError

/-- Lowercasing of the ASCII letters, used to evaluate the functions on concrete inputs. -/
def asciiToLowerCase (s : String) : String :=
  String.mk (s.data.map Char.toLower)

/-! ## Order documents and classification (lines 17-68) -/

/-- The fields of an order document that the function reads. -/
structure OrderData where
  orderNumber : JsValue
  customerName : JsValue
  itemCount : JsValue
  status : JsValue
  deriving DecidableEq, Repr

/-- The object `notificationData` of line 34. -/
structure NotificationData where
  orderId : String
  orderNumber : JsValue
  type : String
  deriving DecidableEq, Repr

/-- The values of `title`, `body` and `notificationData` when line 70 is reached. -/
structure Notification where
  title : String
  body : String
  notificationData : NotificationData
  deriving DecidableEq, Repr

/-- The branch on the lowercased statuses, lines 49-64. -/
def statusNotification (newData : OrderData) (nd : NotificationData)
    (newStatus oldStatus : String) : Option Notification :=
  if newStatus = "received" ∧ oldStatus = "notreceived" then
    some { title := "📥 Order Received"
           body := "Order " ++ newData.orderNumber.interpolate ++ " has been received"
           notificationData := { nd with type := "order_received" } }
  else if newStatus = "completed" then
    some { title := "✅ Order Completed"
           body := "Order " ++ newData.orderNumber.interpolate ++ " for "
             ++ newData.customerName.interpolate ++ " is now complete!"
           notificationData := { nd with type := "order_completed" } }
  else if newStatus = "cancelled" then
    some { title := "❌ Order Cancelled"
           body := "Order " ++ newData.orderNumber.interpolate ++ " has been cancelled"
           notificationData := { nd with type := "order_cancelled" } }
  else
    none

/-- Lines 17-68 of `onOrderCreatedOrUpdated`.  `before` and `after` are the two snapshots
of the change (`none` when the snapshot does not exist).  The result is `.ok none` when the
function returns before line 70, `.ok (some n)` when it goes on to notify, and an error
when an exception is raised. -/
def classify (toLowerCase : String → String) (orderId : String)
    (before after : Option OrderData) : Except JsError (Option Notification) :=
  match after with
  | none => .ok none
  | some newData =>
    let nd : NotificationData :=
      { orderId := orderId, orderNumber := newData.orderNumber, type := "order_update" }
    match before with
    | none =>
      .ok (some { title := "🆕 New Order Created"
                  body := "Order " ++ newData.orderNumber.interpolate ++ " for "
                    ++ newData.customerName.interpolate ++ " - "
                    ++ newData.itemCount.interpolate ++ " items"
                  notificationData := { nd with type := "new_order" } })
    | some oldData =>
      if oldData.status ≠ newData.status then
        match callToLowerCase toLowerCase newData.status with
        | .error e => .error e
        | .ok newStatus =>
          match callToLowerCase toLowerCase oldData.status with
          | .error e => .error e
          | .ok oldStatus => .ok (statusNotification newData nd newStatus oldStatus)
      else
        .ok none

/-! ## The device registry and the push transport -/

/-- A document of the `deviceTokens` collection: its identifier and its `token` field
(`none` when the field is missing). -/
structure TokenDoc where
  id : String
  token : Option String
  deriving DecidableEq, Repr

/-- The message object of lines 93-105. -/
structure MulticastMessage where
  title : String
  body : String
  orderId : String
  orderNumber : JsValue
  type : String
  tokens : List String
  deriving DecidableEq, Repr

/-- One entry of `response.responses`: the `success` flag and, for a failed send,
`error.code`. -/
structure SendResponse where
  success : Bool
  errorCode : Option String
  deriving DecidableEq, Repr

/-- The object `sendMulticast` resolves to. -/
structure BatchResponse where
  responses : List SendResponse
  successCount : Nat
  failureCount : Nat
  deriving DecidableEq, Repr

/-- The message of a probe, lines 169-172. -/
structure ProbeMessage where
  check : String
  token : Option String
  deriving DecidableEq, Repr

/-- The outcome of one `messaging.send` call: it resolves, or it throws an error whose
`code` property is given (`none` when the error has no code). -/
inductive ProbeOutcome where
  | delivered
  | threw (code : Option String)
  deriving DecidableEq, Repr

/-- The external calls a run makes, in order. -/
inductive Effect where
  | registryRead
  | sendMulticast (message : MulticastMessage)
  | send (message : ProbeMessage)
  | batchCommit (paths : List (List String))
  deriving DecidableEq, Repr

/-- The value `onOrderCreatedOrUpdated` returns: `undefined`, or the object of
lines 136-140. -/
inductive Returned where
  | undefined
  | report (successCount failureCount : Nat)
  deriving DecidableEq, Repr

/-- A finished run of `onOrderCreatedOrUpdated`: the external calls made, the content of
`deviceTokens` afterwards, and the returned value or the error thrown. -/
structure Run where
  effects : List Effect
  registry : List TokenDoc
  result : Except JsError Returned

/-- The loop of lines 78-84: the truthy `token` fields, in snapshot order. -/
def collectTokens : List TokenDoc → List String
  | [] => []
  | doc :: rest =>
    match doc.token with
    | some token => if token ≠ "" then token :: collectTokens rest else collectTokens rest
    | none => collectTokens rest

/-- The loop of lines 118-122, from index `idx` on, appending to `failedTokens`.
`deviceTokens[idx]` is `none` when the index is out of range. -/
def collectFailed (deviceTokens : List String) :
    List SendResponse → Nat → List (Option String) → List (Option String)
  | [], _, failedTokens => failedTokens
  | resp :: rest, idx, failedTokens =>
    if !resp.success then
      collectFailed deviceTokens rest (idx + 1) (failedTokens ++ [deviceTokens[idx]?])
    else
      collectFailed deviceTokens rest (idx + 1) failedTokens

/-- The pieces of a path between its slashes, as splitting the path at every slash gives
them (an empty path has one empty piece). -/
def splitOnSlash : List Char → List (List Char)
  | [] => [[]]
  | c :: cs =>
    if c = '/' then [] :: splitOnSlash cs
    else
      match splitOnSlash cs with
      | [] => [[c]]
      | segment :: segments => (c :: segment) :: segments

/-- Whether a path holds two slashes in a row. -/
def hasDoubleSlash : List Char → Bool
  | [] => false
  | c :: cs =>
    match cs with
    | [] => false
    | d :: _ => (c = '/' && d = '/') || hasDoubleSlash cs

/-- The call `db.collection(_).doc(token)` of line 129 on `deviceTokens`, as the Firestore
client resolves it: the argument has to be a non-empty string without `//`; it is split at
the slashes, empty pieces are dropped, and the pieces, appended to the collection, have to
point to a document, that is, their number has to be odd.  The result is the path of the
document below the collection: `[id]` for the document `id` of `deviceTokens`, a longer
path for a document of a nested collection. -/
def docRef : Option String → Except JsError (List String)
  | none => .error .invalidDocumentPath
  | some token =>
    if token = "" ∨ hasDoubleSlash token.data = true then .error .invalidDocumentPath
    else
      let segments :=
        ((splitOnSlash token.data).filter (fun segment => segment ≠ [])).map String.mk
      if segments.length % 2 = 1 then .ok segments else .error .invalidDocumentPath

/-- The loop of lines 128-131: the document paths queued in the batch. -/
def batchDeletes : List (Option String) → Except JsError (List (List String))
  | [] => .ok []
  | token :: rest =>
    match docRef token with
    | .error e => .error e
    | .ok path =>
      match batchDeletes rest with
      | .error e => .error e
      | .ok paths => .ok (path :: paths)

/-- The effect of committing a batch of deletes on the collection: the documents of
`deviceTokens` whose path is in the batch are gone. -/
def commitDeletes (registry : List TokenDoc) (paths : List (List String)) : List TokenDoc :=
  registry.filter (fun doc => [doc.id] ∉ paths)

/-- The message prepared at lines 93-105. -/
def buildMessage (n : Notification) (deviceTokens : List String) : MulticastMessage :=
  { title := n.title, body := n.body, orderId := n.notificationData.orderId,
    orderNumber := n.notificationData.orderNumber, type := n.notificationData.type,
    tokens := deviceTokens }

/-- Lines 70-140 of `onOrderCreatedOrUpdated`, entered with a notification. -/
def notifyDevices (sendMulticast : MulticastMessage → Except JsError BatchResponse)
    (n : Notification) (registry : List TokenDoc) : Run :=
  if registry.isEmpty then
    { effects := [.registryRead], registry := registry, result := .ok .undefined }
  else
    let deviceTokens := collectTokens registry
    if deviceTokens.length = 0 then
      { effects := [.registryRead], registry := registry, result := .ok .undefined }
    else
      let message := buildMessage n deviceTokens
      match sendMulticast message with
      | .error e =>
        { effects := [.registryRead, .sendMulticast message], registry := registry,
          result := .error e }
      | .ok response =>
        let returned := Returned.report response.successCount response.failureCount
        if response.failureCount > 0 then
          let failedTokens := collectFailed deviceTokens response.responses 0 []
          if failedTokens.length > 0 then
            match batchDeletes failedTokens with
            | .error e =>
              { effects := [.registryRead, .sendMulticast message], registry := registry,
                result := .error e }
            | .ok paths =>
              { effects := [.registryRead, .sendMulticast message, .batchCommit paths],
                registry := commitDeletes registry paths, result := .ok returned }
          else
            { effects := [.registryRead, .sendMulticast message], registry := registry,
              result := .ok returned }
        else
          { effects := [.registryRead, .sendMulticast message], registry := registry,
            result := .ok returned }

/-- The handler of `onOrderCreatedOrUpdated` (lines 16-146) on a change of
`orders/{orderId}`, with `registry` the content of `deviceTokens`. -/
def onOrderCreatedOrUpdated (toLowerCase : String → String)
    (sendMulticast : MulticastMessage → Except JsError BatchResponse)
    (orderId : String) (before after : Option OrderData) (registry : List TokenDoc) : Run :=
  match classify toLowerCase orderId before after with
  | .error e => { effects := [], registry := registry, result := .error e }
  | .ok none => { effects := [], registry := registry, result := .ok .undefined }
  | .ok (some n) => notifyDevices sendMulticast n registry

/-! ## The daily sweep (lines 156-188) -/

/-- The variables of the loop of lines 164-181: the probes sent so far, the document
paths queued in `batch`, and `deleteCount`. -/
structure SweepState where
  probes : List ProbeMessage
  batch : List (List String)
  deleteCount : Nat
  deriving DecidableEq, Repr

/-- The test of lines 175-176 on `error.code`. -/
def isInvalidTokenCode (code : Option String) : Bool :=
  code = some "messaging/invalid-registration-token" ||
    code = some "messaging/registration-token-not-registered"

/-- The probe sent for a document, lines 166-172. -/
def probeMessage (doc : TokenDoc) : ProbeMessage :=
  { check := "valid", token := doc.token }

/-- One iteration of the loop, lines 165-180.  `send k m` is the outcome of the call
number `k` (from 0) of `messaging.send`, made with message `m`. -/
def sweepStep (send : Nat → ProbeMessage → ProbeOutcome) (st : SweepState)
    (doc : TokenDoc) : SweepState :=
  let message := probeMessage doc
  match send st.probes.length message with
  | .delivered => { st with probes := st.probes ++ [message] }
  | .threw code =>
    if isInvalidTokenCode code then
      { probes := st.probes ++ [message], batch := st.batch ++ [[doc.id]],
        deleteCount := st.deleteCount + 1 }
    else
      { st with probes := st.probes ++ [message] }

/-- The loop of lines 164-181 over the documents of the snapshot. -/
def sweepLoop (send : Nat → ProbeMessage → ProbeOutcome) :
    List TokenDoc → SweepState → SweepState
  | [], st => st
  | doc :: rest, st => sweepLoop send rest (sweepStep send st doc)

/-- A finished run of `cleanupExpiredTokens`: the external calls made, the content of
`deviceTokens` afterwards, and the `cleaned` field of the returned object. -/
structure SweepRun where
  effects : List Effect
  registry : List TokenDoc
  cleaned : Nat
  deriving DecidableEq, Repr

/-- The handler of `cleanupExpiredTokens` (lines 155-193), with `registry` the content of
`deviceTokens`. -/
def cleanupExpiredTokens (send : Nat → ProbeMessage → ProbeOutcome)
    (registry : List TokenDoc) : SweepRun :=
  let st := sweepLoop send registry { probes := [], batch := [], deleteCount := 0 }
  let probed := Effect.registryRead :: st.probes.map Effect.send
  if st.deleteCount > 0 then
    { effects := probed ++ [.batchCommit st.batch],
      registry := commitDeletes registry st.batch, cleaned := st.deleteCount }
  else
    { effects := probed, registry := registry, cleaned := st.deleteCount }

/-! ## Concrete inputs -/

/-- The order record of scenario A (`orderNumber` 42, `customerName` Alice, `itemCount` 3)
with the given `status` value. -/
def sampleOrder (status : JsValue) : OrderData :=
  { orderNumber := .string "42", customerName := .string "Alice", itemCount := .number 3,
    status := status }

/-- A registry of three registrations, each keyed by its token. -/
def sampleRegistry : List TokenDoc :=
  [{ id := "tokA", token := some "tokA" }, { id := "tokB", token := some "tokB" },
   { id := "tokC", token := some "tokC" }]

/-- A transport answering every multicast with three results, of which the second failed
with the given code. -/
def secondFails (code : String) : MulticastMessage → Except JsError BatchResponse :=
  fun _ => .ok
    { responses :=
        [{ success := true, errorCode := none },
         { success := false, errorCode := some code },
         { success := true, errorCode := none }],
      successCount := 2, failureCount := 1 }

/-- A transport answering every multicast with three results, of which the third failed
as not registered. -/
def thirdFails : MulticastMessage → Except JsError BatchResponse :=
  fun _ => .ok
    { responses :=
        [{ success := true, errorCode := none },
         { success := true, errorCode := none },
         { success := false,
           errorCode := some "messaging/registration-token-not-registered" }],
      successCount := 2, failureCount := 1 }

/-- A registry that is not keyed by token: the document stored under `tokB` holds the
token `tokX`, and the token `tokB` is held by the document `d3`. -/
def unkeyedRegistry : List TokenDoc :=
  [{ id := "d1", token := some "tokA" }, { id := "tokB", token := some "tokX" },
   { id := "d3", token := some "tokB" }]

/-- A registry whose second token holds a slash. -/
def slashRegistry : List TokenDoc :=
  [{ id := "d1", token := some "tokA" }, { id := "d2", token := some "a/b" },
   { id := "d3", token := some "tokC" }]

/-- A registry of five registrations stored under identifiers of their own; the last one
has no `token` field. -/
def sampleSweepRegistry : List TokenDoc :=
  [{ id := "d0", token := some "tokA" }, { id := "d1", token := some "tokB" },
   { id := "d2", token := some "tokC" }, { id := "d3", token := some "tokD" },
   { id := "d4", token := none }]

/-- A probe transport delivering the call number 0, rejecting the call number 1 with the
not-registered code, the call number 2 with a transient code, the call number 3 with the
invalid-token code, and every later call with an error that has no code. -/
def sampleProbe : Nat → ProbeMessage → ProbeOutcome :=
  fun k _ =>
    if k = 0 then .delivered
    else if k = 1 then .threw (some "messaging/registration-token-not-registered")
    else if k = 2 then .threw (some "messaging/internal-error")
    else if k = 3 then .threw (some "messaging/invalid-registration-token")
    else .threw none

/-! ## Reference descriptions used in the statements -/

/-- The tokens at the positions of the failed results, in order (a description of what
the loop `collectFailed` is expected to collect, not a translation of it). -/
def failedAt (deviceTokens : List String) (responses : List SendResponse) : List String :=
  ((deviceTokens.zip responses).filter (fun p => !p.2.success)).map Prod.fst

/-- Whether a document is stored as the data model of the specification has it: its
identifier is non-empty and free of slashes, and a non-empty token is the identifier of
its document. -/
def keyedDoc (doc : TokenDoc) : Bool :=
  decide (doc.id ≠ "" ∧ '/' ∉ doc.id.data) &&
    (match doc.token with
     | some token => decide (token = "" ∨ doc.id = token)
     | none => true)

/-- A registry keyed by token: every document is stored under its token, and no two
documents share an identifier. -/
def KeyedByToken (registry : List TokenDoc) : Prop :=
  (∀ doc ∈ registry, keyedDoc doc = true) ∧ (registry.map TokenDoc.id).Nodup

/-- Whether the probe of the document at position `p.1` of the snapshot, a message
holding `check: valid` and the token of the document, is rejected with the code
`messaging/invalid-registration-token` or `messaging/registration-token-not-registered`
(a description of the claim, written without the definitions that embed the code). -/
def probeRejected (send : Nat → ProbeMessage → ProbeOutcome) (p : Nat × TokenDoc) : Bool :=
  match send p.1 { check := "valid", token := p.2.token } with
  | .delivered => false
  | .threw code =>
    decide (code = some "messaging/invalid-registration-token" ∨
      code = some "messaging/registration-token-not-registered")

/-- The identifiers of the registrations whose probe is rejected with an invalid-token
code, in snapshot order, the first one being numbered `start`. -/
def rejectedFrom (send : Nat → ProbeMessage → ProbeOutcome) (start : Nat)
    (registry : List TokenDoc) : List String :=
  ((registry.enumFrom start).filter (probeRejected send)).map (fun p => p.2.id)

/-! ## Classification -/

/-- A run whose classification yields no notification makes no external call, leaves the
registry alone and returns `undefined`. -/
theorem run_of_classify_none (toLowerCase : String → String)
    (sendMulticast : MulticastMessage → Except JsError BatchResponse)
    (orderId : String) (before after : Option OrderData) (registry : List TokenDoc)
    (h : classify toLowerCase orderId before after = .ok none) :
    (onOrderCreatedOrUpdated toLowerCase sendMulticast orderId before after registry).effects
        = [] ∧
      (onOrderCreatedOrUpdated toLowerCase sendMulticast orderId before after
        registry).registry = registry ∧
      (onOrderCreatedOrUpdated toLowerCase sendMulticast orderId before after registry).result
        = .ok .undefined := by
  simp [onOrderCreatedOrUpdated, h]

/-- The classification of two existing records whose statuses are strings that differ. -/
theorem classify_changed (toLowerCase : String → String) (orderId : String)
    (oldData newData : OrderData) (a b : String)
    (ha : oldData.status = .string a) (hb : newData.status = .string b) (hab : a ≠ b) :
    classify toLowerCase orderId (some oldData) (some newData)
      = .ok (statusNotification newData
          { orderId := orderId, orderNumber := newData.orderNumber, type := "order_update" }
          (toLowerCase b) (toLowerCase a)) := by
  simp [classify, ha, hb, callToLowerCase, hab]

/-- Claim C6: when the current record is absent (a deletion), whatever the previous record
is, the classification yields no notification and the run returns `undefined` with an
empty trace of external calls (no registry read, no multicast, no batch commit) and an
unchanged registry. -/
theorem deletion_sends_nothing (toLowerCase : String → String)
    (sendMulticast : MulticastMessage → Except JsError BatchResponse)
    (orderId : String) (before : Option OrderData) (registry : List TokenDoc) :
    classify toLowerCase orderId before none = .ok none ∧
      (onOrderCreatedOrUpdated toLowerCase sendMulticast orderId before none registry).effects
        = [] ∧
      (onOrderCreatedOrUpdated toLowerCase sendMulticast orderId before none
        registry).registry = registry ∧
      (onOrderCreatedOrUpdated toLowerCase sendMulticast orderId before none registry).result
        = .ok .undefined :=
  ⟨rfl, run_of_classify_none toLowerCase sendMulticast orderId before none registry rfl⟩

/-- Claim C5: when the previous record is absent and the current record is present,
whatever the status, the classification yields the new-order notification: the fixed
title, the body built from `orderNumber`, `customerName` and `itemCount` of the current
record, and a payload holding `orderId`, `orderNumber` and the type tag `new_order`.  On
the record of scenario A the body is `Order 42 for Alice - 3 items`. -/
theorem creation_yields_new_order (toLowerCase : String → String) (orderId : String) :
    (∀ newData : OrderData,
      classify toLowerCase orderId none (some newData)
        = .ok (some
            { title := "🆕 New Order Created"
              body := "Order " ++ newData.orderNumber.interpolate ++ " for "
                ++ newData.customerName.interpolate ++ " - "
                ++ newData.itemCount.interpolate ++ " items"
              notificationData :=
                { orderId := orderId, orderNumber := newData.orderNumber,
                  type := "new_order" } })) ∧
      classify toLowerCase orderId none
          (some (sampleOrder (.string "NotReceived")))
        = .ok (some
            { title := "🆕 New Order Created"
              body := "Order 42 for Alice - 3 items"
              notificationData :=
                { orderId := orderId, orderNumber := .string "42", type := "new_order" } }) :=
  ⟨fun _ => rfl, rfl⟩

/-- Claim C3: for two existing records whose statuses lowercase to `notreceived`
(previous) and `received` (current), the classification yields the received notification:
its title, the body `Order <orderNumber> has been received` and the type tag
`order_received`. -/
theorem notreceived_to_received (toLowerCase : String → String) (orderId : String)
    (oldData newData : OrderData) (a b : String)
    (ha : oldData.status = .string a) (hb : newData.status = .string b)
    (hold : toLowerCase a = "notreceived") (hnew : toLowerCase b = "received") :
    classify toLowerCase orderId (some oldData) (some newData)
      = .ok (some
          { title := "📥 Order Received"
            body := "Order " ++ newData.orderNumber.interpolate ++ " has been received"
            notificationData :=
              { orderId := orderId, orderNumber := newData.orderNumber,
                type := "order_received" } }) := by
  have hab : a ≠ b := by
    intro h
    rw [h, hnew] at hold
    exact absurd hold (by decide)
  rw [classify_changed toLowerCase orderId oldData newData a b ha hb hab]
  simp [statusNotification, hold, hnew]

/-- Witness for claim C3: `NotReceived` followed by `received`. -/
theorem notreceived_to_received_witness :
    asciiToLowerCase "NotReceived" = "notreceived" ∧
      asciiToLowerCase "received" = "received" ∧
      classify asciiToLowerCase "o1"
          (some (sampleOrder (.string "NotReceived")))
          (some (sampleOrder (.string "received")))
        = .ok (some
            { title := "📥 Order Received"
              body := "Order 42 has been received"
              notificationData :=
                { orderId := "o1", orderNumber := .string "42", type := "order_received" } }) :=
  ⟨by decide, by decide,
    notreceived_to_received asciiToLowerCase "o1" _ _ "NotReceived" "received" rfl rfl
      (by decide) (by decide)⟩

/-- Claim C4: for two existing records whose statuses differ after lowercasing, a
current status that lowercases to `completed` yields the completed notification with the
type tag `order_completed`, and one that lowercases to `cancelled` yields the cancelled
notification with the type tag `order_cancelled`, whatever the previous status is. -/
theorem changed_into_completed_or_cancelled (toLowerCase : String → String)
    (orderId : String) (oldData newData : OrderData) (a b : String)
    (ha : oldData.status = .string a) (hb : newData.status = .string b)
    (hdiff : toLowerCase a ≠ toLowerCase b) :
    (toLowerCase b = "completed" →
      classify toLowerCase orderId (some oldData) (some newData)
        = .ok (some
            { title := "✅ Order Completed"
              body := "Order " ++ newData.orderNumber.interpolate ++ " for "
                ++ newData.customerName.interpolate ++ " is now complete!"
              notificationData :=
                { orderId := orderId, orderNumber := newData.orderNumber,
                  type := "order_completed" } })) ∧
    (toLowerCase b = "cancelled" →
      classify toLowerCase orderId (some oldData) (some newData)
        = .ok (some
            { title := "❌ Order Cancelled"
              body := "Order " ++ newData.orderNumber.interpolate ++ " has been cancelled"
              notificationData :=
                { orderId := orderId, orderNumber := newData.orderNumber,
                  type := "order_cancelled" } })) := by
  have hab : a ≠ b := fun h => hdiff (congrArg toLowerCase h)
  rw [classify_changed toLowerCase orderId oldData newData a b ha hb hab]
  constructor
  · intro h
    simp [statusNotification, h]
  · intro h
    simp [statusNotification, h]

/-- Witness for claim C4: `Received` followed by `Completed`,
and `NotReceived` followed by `CANCELLED`. -/
theorem changed_into_completed_or_cancelled_witness :
    (asciiToLowerCase "Received" ≠ asciiToLowerCase "Completed" ∧
      asciiToLowerCase "Completed" = "completed" ∧
      classify asciiToLowerCase "o1"
          (some (sampleOrder (.string "Received")))
          (some (sampleOrder (.string "Completed")))
        = .ok (some
            { title := "✅ Order Completed"
              body := "Order 42 for Alice is now complete!"
              notificationData :=
                { orderId := "o1", orderNumber := .string "42",
                  type := "order_completed" } })) ∧
    (asciiToLowerCase "NotReceived" ≠ asciiToLowerCase "CANCELLED" ∧
      asciiToLowerCase "CANCELLED" = "cancelled" ∧
      classify asciiToLowerCase "o1"
          (some (sampleOrder (.string "NotReceived")))
          (some (sampleOrder (.string "CANCELLED")))
        = .ok (some
            { title := "❌ Order Cancelled"
              body := "Order 42 has been cancelled"
              notificationData :=
                { orderId := "o1", orderNumber := .string "42",
                  type := "order_cancelled" } })) :=
  ⟨⟨by decide, by decide,
      (changed_into_completed_or_cancelled asciiToLowerCase "o1" _ _ "Received" "Completed"
        rfl rfl (by decide)).1 (by decide)⟩,
    ⟨by decide, by decide,
      (changed_into_completed_or_cancelled asciiToLowerCase "o1" _ _ "NotReceived"
        "CANCELLED" rfl rfl (by decide)).2 (by decide)⟩⟩

/-- Claim C7: for every two existing order records with the identical status value,
whatever their other fields (an edit of `itemCount`, `customerName` or `orderNumber` that
leaves the status alone), and so for every transition from a record `s` to `s` itself, the
classification yields no notification, and the run makes no external call: the multicast
transport is not invoked, the registry is neither read nor changed, and `undefined` is
returned. -/
theorem same_status_sends_nothing (toLowerCase : String → String)
    (sendMulticast : MulticastMessage → Except JsError BatchResponse)
    (orderId : String) (oldData newData : OrderData) (registry : List TokenDoc)
    (hstatus : oldData.status = newData.status) :
    classify toLowerCase orderId (some oldData) (some newData) = .ok none ∧
      classify toLowerCase orderId (some newData) (some newData) = .ok none ∧
      (onOrderCreatedOrUpdated toLowerCase sendMulticast orderId (some oldData)
        (some newData) registry).effects = [] ∧
      (onOrderCreatedOrUpdated toLowerCase sendMulticast orderId (some oldData)
        (some newData) registry).registry = registry ∧
      (onOrderCreatedOrUpdated toLowerCase sendMulticast orderId (some oldData)
        (some newData) registry).result = .ok .undefined := by
  have h : classify toLowerCase orderId (some oldData) (some newData) = .ok none := by
    simp [classify, hstatus]
  have hs : classify toLowerCase orderId (some newData) (some newData) = .ok none := by
    simp [classify]
  exact ⟨h, hs, run_of_classify_none toLowerCase sendMulticast orderId (some oldData)
    (some newData) registry h⟩

/-- Witness for claim C7, scenario D: the status stays `Received` while `itemCount` goes
from 3 to 4 and the customer name changes; with three registered devices and a transport
ready to answer, nothing is sent. -/
theorem same_status_sends_nothing_witness :
    classify asciiToLowerCase "o1" (some (sampleOrder (.string "Received")))
        (some { orderNumber := .string "42", customerName := .string "Alice B.",
                itemCount := .number 4, status := .string "Received" })
      = .ok none ∧
    (onOrderCreatedOrUpdated asciiToLowerCase
        (secondFails "messaging/registration-token-not-registered") "o1"
        (some (sampleOrder (.string "Received")))
        (some { orderNumber := .string "42", customerName := .string "Alice B.",
                itemCount := .number 4, status := .string "Received" })
        sampleRegistry).effects = [] ∧
    (onOrderCreatedOrUpdated asciiToLowerCase
        (secondFails "messaging/registration-token-not-registered") "o1"
        (some (sampleOrder (.string "Received")))
        (some { orderNumber := .string "42", customerName := .string "Alice B.",
                itemCount := .number 4, status := .string "Received" })
        sampleRegistry).registry = sampleRegistry :=
  have h := same_status_sends_nothing asciiToLowerCase
    (secondFails "messaging/registration-token-not-registered") "o1"
    (sampleOrder (.string "Received"))
    { orderNumber := .string "42", customerName := .string "Alice B.",
      itemCount := .number 4, status := .string "Received" }
    sampleRegistry rfl
  ⟨h.1, h.2.2.1, h.2.2.2.1⟩

/-- Claim C2, counterexample: `completed` and `Completed` are equal after lowercasing,
yet the transition from the first to the second builds the completed notification, and
with one registered device the multicast is sent. -/
theorem case_only_change_notifies :
    asciiToLowerCase "completed" = asciiToLowerCase "Completed" ∧
      classify asciiToLowerCase "o1"
          (some (sampleOrder (.string "completed")))
          (some (sampleOrder (.string "Completed")))
        = .ok (some
            { title := "✅ Order Completed"
              body := "Order 42 for Alice is now complete!"
              notificationData :=
                { orderId := "o1", orderNumber := .string "42",
                  type := "order_completed" } }) ∧
      (onOrderCreatedOrUpdated asciiToLowerCase
          (fun _ => .ok { responses := [{ success := true, errorCode := none }],
                          successCount := 1, failureCount := 0 })
          "o1"
          (some (sampleOrder (.string "completed")))
          (some (sampleOrder (.string "Completed")))
          [{ id := "tokA", token := some "tokA" }]).effects
        = [.registryRead,
           .sendMulticast
             { title := "✅ Order Completed"
               body := "Order 42 for Alice is now complete!"
               orderId := "o1", orderNumber := .string "42", type := "order_completed"
               tokens := ["tokA"] }] :=
  ⟨by decide, rfl, rfl⟩

/-- Claim C2, amended: for two existing records whose status strings are equal after
lowercasing, the classification yields no notification exactly when the two strings are
identical or the lowercased current status is neither `completed` nor `cancelled`; in
that case no title or body is built and the run makes no external call, so no multicast
is sent.  When the two strings differ and the current status lowercases to `completed`,
the completed notification is built, and when it lowercases to `cancelled`, the cancelled
notification is built. -/
theorem case_insensitive_equal_statuses (toLowerCase : String → String)
    (sendMulticast : MulticastMessage → Except JsError BatchResponse)
    (orderId : String) (oldData newData : OrderData) (a b : String)
    (registry : List TokenDoc)
    (ha : oldData.status = .string a) (hb : newData.status = .string b)
    (heq : toLowerCase a = toLowerCase b) :
    (classify toLowerCase orderId (some oldData) (some newData) = .ok none ↔
      (a = b ∨ (toLowerCase b ≠ "completed" ∧ toLowerCase b ≠ "cancelled"))) ∧
    ((a = b ∨ (toLowerCase b ≠ "completed" ∧ toLowerCase b ≠ "cancelled")) →
      (onOrderCreatedOrUpdated toLowerCase sendMulticast orderId (some oldData)
        (some newData) registry).effects = [] ∧
      (onOrderCreatedOrUpdated toLowerCase sendMulticast orderId (some oldData)
        (some newData) registry).result = .ok .undefined) ∧
    (a ≠ b → toLowerCase b = "completed" →
      classify toLowerCase orderId (some oldData) (some newData)
        = .ok (some
            { title := "✅ Order Completed"
              body := "Order " ++ newData.orderNumber.interpolate ++ " for "
                ++ newData.customerName.interpolate ++ " is now complete!"
              notificationData :=
                { orderId := orderId, orderNumber := newData.orderNumber,
                  type := "order_completed" } })) ∧
    (a ≠ b → toLowerCase b = "cancelled" →
      classify toLowerCase orderId (some oldData) (some newData)
        = .ok (some
            { title := "❌ Order Cancelled"
              body := "Order " ++ newData.orderNumber.interpolate ++ " has been cancelled"
              notificationData :=
                { orderId := orderId, orderNumber := newData.orderNumber,
                  type := "order_cancelled" } })) := by
  have key : classify toLowerCase orderId (some oldData) (some newData) = .ok none ↔
      (a = b ∨ (toLowerCase b ≠ "completed" ∧ toLowerCase b ≠ "cancelled")) := by
    by_cases hab : a = b
    · subst hab
      simp [classify, ha, hb]
    · rw [classify_changed toLowerCase orderId oldData newData a b ha hb hab, heq]
      have hnot : ¬ (toLowerCase b = "received" ∧ toLowerCase b = "notreceived") := by
        rintro ⟨h1, h2⟩
        rw [h1] at h2
        exact absurd h2 (by decide)
      by_cases h1 : toLowerCase b = "completed"
      · simp [statusNotification, h1, hab]
      · by_cases h2 : toLowerCase b = "cancelled"
        · simp [statusNotification, h2, hab]
        · simp [statusNotification, hnot, h1, h2]
  refine ⟨key, fun h => ?_, fun hab h1 => ?_, fun hab h2 => ?_⟩
  · have hrun := run_of_classify_none toLowerCase sendMulticast orderId (some oldData)
      (some newData) registry (key.mpr h)
    exact ⟨hrun.1, hrun.2.2⟩
  · rw [classify_changed toLowerCase orderId oldData newData a b ha hb hab]
    simp [statusNotification, h1]
  · rw [classify_changed toLowerCase orderId oldData newData a b ha hb hab]
    simp [statusNotification, h2]

/-- Witness for claim C2: `received` followed by `Received` yields no notification,
`completed` followed by `Completed` builds the completed notification, and `cancelled`
followed by `CANCELLED` builds the cancelled notification. -/
theorem case_insensitive_equal_statuses_witness :
    (asciiToLowerCase "received" = asciiToLowerCase "Received" ∧
      classify asciiToLowerCase "o1"
          (some (sampleOrder (.string "received")))
          (some (sampleOrder (.string "Received")))
        = .ok none) ∧
    (asciiToLowerCase "completed" = asciiToLowerCase "Completed" ∧
      classify asciiToLowerCase "o1"
          (some (sampleOrder (.string "completed")))
          (some (sampleOrder (.string "Completed")))
        = .ok (some
            { title := "✅ Order Completed"
              body := "Order 42 for Alice is now complete!"
              notificationData :=
                { orderId := "o1", orderNumber := .string "42",
                  type := "order_completed" } })) ∧
    (asciiToLowerCase "cancelled" = asciiToLowerCase "CANCELLED" ∧
      classify asciiToLowerCase "o1"
          (some (sampleOrder (.string "cancelled")))
          (some (sampleOrder (.string "CANCELLED")))
        = .ok (some
            { title := "❌ Order Cancelled"
              body := "Order 42 has been cancelled"
              notificationData :=
                { orderId := "o1", orderNumber := .string "42",
                  type := "order_cancelled" } })) :=
  ⟨⟨by decide,
      (case_insensitive_equal_statuses asciiToLowerCase (fun _ => .error .typeError) "o1"
        _ _ "received" "Received" [] rfl rfl (by decide)).1.mpr
        (Or.inr ⟨by decide, by decide⟩)⟩,
    ⟨by decide,
      (case_insensitive_equal_statuses asciiToLowerCase (fun _ => .error .typeError) "o1"
        _ _ "completed" "Completed" [] rfl rfl (by decide)).2.2.1 (by decide) (by decide)⟩,
    ⟨by decide,
      (case_insensitive_equal_statuses asciiToLowerCase (fun _ => .error .typeError) "o1"
        _ _ "cancelled" "CANCELLED" [] rfl rfl (by decide)).2.2.2 (by decide) (by decide)⟩⟩

/-- Claim C8, counterexample: an existing record with status `NotReceived` followed by an
existing record whose status field is missing makes the classification raise a
`TypeError`, and the run ends with that error. -/
theorem missing_status_raises :
    classify asciiToLowerCase "o1"
        (some (sampleOrder (.string "NotReceived")))
        (some (sampleOrder (.undefined)))
      = .error .typeError ∧
    (onOrderCreatedOrUpdated asciiToLowerCase (fun _ => .error .typeError) "o1"
        (some (sampleOrder (.string "NotReceived")))
        (some (sampleOrder (.undefined)))
        []).result = .error .typeError :=
  ⟨rfl, rfl⟩

/-- Claim C8, amended: for every pair of snapshots in which, whenever both records exist
and their status values differ, both statuses are strings (so in particular whenever a
record is absent, the statuses are identical, or all statuses are strings), the
classification raises no error and ends with exactly one outcome: no notification, or a
notification whose type tag is one of `new_order`, `order_received`, `order_completed`
and `order_cancelled`. -/
theorem classify_total_on_string_statuses (toLowerCase : String → String)
    (orderId : String) (before after : Option OrderData)
    (h : ∀ oldData newData, before = some oldData → after = some newData →
      oldData.status ≠ newData.status →
        (∃ a, oldData.status = .string a) ∧ (∃ b, newData.status = .string b)) :
    ∃ r, classify toLowerCase orderId before after = .ok r ∧
      (r = none ∨ ∃ n, r = some n ∧
        n.notificationData.type ∈
          ["new_order", "order_received", "order_completed", "order_cancelled"]) := by
  cases after with
  | none => exact ⟨none, rfl, Or.inl rfl⟩
  | some newData =>
    cases before with
    | none => exact ⟨_, rfl, Or.inr ⟨_, rfl, by simp⟩⟩
    | some oldData =>
      by_cases hne : oldData.status = newData.status
      · exact ⟨none, by simp [classify, hne], Or.inl rfl⟩
      · obtain ⟨⟨a, ha⟩, ⟨b, hb⟩⟩ := h oldData newData rfl rfl hne
        have hab : a ≠ b := by
          intro hab
          exact hne (by rw [ha, hb, hab])
        refine ⟨_, classify_changed toLowerCase orderId oldData newData a b ha hb hab, ?_⟩
        unfold statusNotification
        split_ifs
        · exact Or.inr ⟨_, rfl, by simp⟩
        · exact Or.inr ⟨_, rfl, by simp⟩
        · exact Or.inr ⟨_, rfl, by simp⟩
        · exact Or.inl rfl

/-- Witness for claim C8: `Received` followed by `Pending`. -/
theorem classify_total_on_string_statuses_witness :
    ∃ r, classify asciiToLowerCase "o1"
        (some (sampleOrder (.string "Received")))
        (some (sampleOrder (.string "Pending"))) = .ok r ∧
      (r = none ∨ ∃ n, r = some n ∧
        n.notificationData.type ∈
          ["new_order", "order_received", "order_completed", "order_cancelled"]) :=
  classify_total_on_string_statuses asciiToLowerCase "o1" _ _
    (fun oldData newData ho hn _ => by
      cases ho
      cases hn
      exact ⟨⟨"Received", rfl⟩, ⟨"Pending", rfl⟩⟩)

/-- When both records exist, their status values differ and one of them is not a string,
the classification raises a `TypeError`. -/
theorem classify_raises_of_non_string_status (toLowerCase : String → String)
    (orderId : String) (oldData newData : OrderData)
    (hne : oldData.status ≠ newData.status)
    (hns : (∀ a, oldData.status ≠ .string a) ∨ (∀ b, newData.status ≠ .string b)) :
    classify toLowerCase orderId (some oldData) (some newData) = .error .typeError := by
  unfold classify
  simp only [hne, ne_eq, not_false_eq_true, ↓reduceIte]
  cases hn : newData.status <;> cases ho : oldData.status <;>
    simp_all [callToLowerCase]

/-! ## Delivery and removal of failed tokens -/

/-- The tokens collected from the registry are the non-empty `token` fields. -/
theorem mem_collectTokens (registry : List TokenDoc) (t : String) :
    t ∈ collectTokens registry ↔ t ≠ "" ∧ ∃ doc ∈ registry, doc.token = some t := by
  induction registry with
  | nil => simp [collectTokens]
  | cons doc rest ih =>
    unfold collectTokens
    cases htok : doc.token with
    | none => simp [ih, htok]
    | some token =>
      by_cases hne : token = ""
      · simp only [hne, ne_eq, not_true_eq_false, ↓reduceIte, ih, List.mem_cons,
          exists_eq_or_imp, htok, Option.some.injEq]
        constructor
        · rintro ⟨h1, h2⟩
          exact ⟨h1, Or.inr h2⟩
        · rintro ⟨h1, h2 | h2⟩
          · exact absurd h2.symm h1
          · exact ⟨h1, h2⟩
      · simp only [ne_eq, hne, not_false_eq_true, ↓reduceIte, List.mem_cons, ih,
          exists_eq_or_imp, htok, Option.some.injEq]
        constructor
        · rintro (h | ⟨h1, h2⟩)
          · exact ⟨by rw [h]; exact hne, Or.inl h.symm⟩
          · exact ⟨h1, Or.inr h2⟩
        · rintro ⟨h1, h2 | h2⟩
          · exact Or.inl h2.symm
          · exact Or.inr ⟨h1, h2⟩

/-- With one result per token, the loop of lines 118-122 collects the tokens at the
positions of the failed results. -/
theorem collectFailed_eq :
    ∀ (responses : List SendResponse) (ts : List String) (pre : List String)
      (acc : List (Option String)), ts.length = responses.length →
      collectFailed (pre ++ ts) responses pre.length acc
        = acc ++ (failedAt ts responses).map some := by
  intro responses
  induction responses with
  | nil =>
    intro ts pre acc hlen
    simp [collectFailed, failedAt]
  | cons resp rest ih =>
    intro ts pre acc hlen
    cases ts with
    | nil => simp at hlen
    | cons t ts =>
      have hlen2 : ts.length = rest.length := by simpa using hlen
      have hget : (pre ++ t :: ts)[pre.length]? = some t := by
        rw [List.getElem?_append_right (le_refl _)]
        simp
      have hsplit : pre ++ t :: ts = (pre ++ [t]) ++ ts := by simp
      have hidx : pre.length + 1 = (pre ++ [t]).length := by simp
      unfold collectFailed
      rw [hget, hsplit, hidx, ih ts (pre ++ [t]) _ hlen2, ih ts (pre ++ [t]) _ hlen2]
      cases hs : resp.success <;> simp [failedAt, hs]

/-- Every token of `failedAt` is one of the targeted tokens. -/
theorem failedAt_subset (deviceTokens : List String) (responses : List SendResponse) :
    ∀ t ∈ failedAt deviceTokens responses, t ∈ deviceTokens := by
  intro t ht
  simp only [failedAt, List.mem_map, List.mem_filter] at ht
  obtain ⟨p, ⟨hp, _⟩, rfl⟩ := ht
  exact (List.of_mem_zip hp).1

/-- A path without a slash is one piece. -/
theorem splitOnSlash_of_no_slash (cs : List Char) (h : '/' ∉ cs) :
    splitOnSlash cs = [cs] := by
  induction cs with
  | nil => rfl
  | cons c cs ih =>
    have hc : c ≠ '/' := fun hc => h (by rw [hc]; exact List.mem_cons_self _ _)
    have hcs : '/' ∉ cs := fun hcs => h (List.mem_cons_of_mem _ hcs)
    simp [splitOnSlash, hc, ih hcs]

/-- A path without a slash has no two slashes in a row. -/
theorem hasDoubleSlash_of_no_slash (cs : List Char) (h : '/' ∉ cs) :
    hasDoubleSlash cs = false := by
  induction cs with
  | nil => rfl
  | cons c cs ih =>
    have hc : c ≠ '/' := fun hc => h (by rw [hc]; exact List.mem_cons_self _ _)
    have hcs : '/' ∉ cs := fun hcs => h (List.mem_cons_of_mem _ hcs)
    cases cs with
    | nil => rfl
    | cons d ds =>
      show (decide (c = '/') && decide (d = '/') || hasDoubleSlash (d :: ds)) = false
      rw [ih hcs]
      simp [hc]

/-- A non-empty token without a slash names the document of `deviceTokens` stored under
it. -/
theorem docRef_of_no_slash (t : String) (hne : t ≠ "") (h : '/' ∉ t.data) :
    docRef (some t) = .ok [t] := by
  have hdata : t.data ≠ [] := by
    intro hd
    apply hne
    cases t
    simp_all
  simp [docRef, hne, hasDoubleSlash_of_no_slash t.data h, splitOnSlash_of_no_slash t.data h,
    hdata]

/-- Queuing deletes for non-empty tokens without a slash never fails and queues the
documents stored under the tokens. -/
theorem batchDeletes_some (tokens : List String)
    (h : ∀ t ∈ tokens, t ≠ "" ∧ '/' ∉ t.data) :
    batchDeletes (tokens.map some) = .ok (tokens.map (fun t => [t])) := by
  induction tokens with
  | nil => rfl
  | cons t rest ih =>
    have ht := h t (List.mem_cons_self _ _)
    have hrest : ∀ u ∈ rest, u ≠ "" ∧ '/' ∉ u.data :=
      fun u hu => h u (List.mem_cons_of_mem _ hu)
    simp [batchDeletes, docRef_of_no_slash t ht.1 ht.2, ih hrest]

/-- With one result per token, `failedAt` has one entry per failed result. -/
theorem failedAt_length :
    ∀ (responses : List SendResponse) (ts : List String), ts.length = responses.length →
      (failedAt ts responses).length
        = (responses.filter (fun r => !r.success)).length := by
  intro responses
  induction responses with
  | nil =>
    intro ts _
    simp [failedAt]
  | cons resp rest ih =>
    intro ts hlen
    cases ts with
    | nil => simp at hlen
    | cons t ts =>
      have hlen2 : ts.length = rest.length := by simpa using hlen
      have h := ih ts hlen2
      simp only [failedAt, List.length_map] at h
      cases hs : resp.success <;> simp [failedAt, hs, h]

/-- The run of lines 70-140 when the registry holds at least one token, no token holds a
slash, and the transport answers with one result per token and a failure count that
counts the failed results. -/
theorem notifyDevices_run (sendMulticast : MulticastMessage → Except JsError BatchResponse)
    (n : Notification) (registry : List TokenDoc) (response : BatchResponse)
    (htok : collectTokens registry ≠ [])
    (hslash : ∀ t ∈ collectTokens registry, '/' ∉ t.data)
    (hsend : sendMulticast (buildMessage n (collectTokens registry)) = .ok response)
    (hlen : response.responses.length = (collectTokens registry).length)
    (hcount : response.failureCount
      = (response.responses.filter (fun r => !r.success)).length) :
    (notifyDevices sendMulticast n registry).result
        = .ok (.report response.successCount response.failureCount) ∧
      (notifyDevices sendMulticast n registry).registry
        = registry.filter
            (fun doc => doc.id ∉ failedAt (collectTokens registry) response.responses) ∧
      (notifyDevices sendMulticast n registry).effects
        = [.registryRead, .sendMulticast (buildMessage n (collectTokens registry))]
          ++ (if failedAt (collectTokens registry) response.responses = [] then []
              else [.batchCommit
                ((failedAt (collectTokens registry) response.responses).map
                  (fun t => [t]))]) := by
  have hreg : registry.isEmpty = false := by
    cases registry with
    | nil => exact absurd rfl htok
    | cons _ _ => rfl
  have hlen0 : ¬ (collectTokens registry).length = 0 := by
    intro h
    exact htok (List.length_eq_zero.mp h)
  have hfail : collectFailed (collectTokens registry) response.responses 0 []
      = (failedAt (collectTokens registry) response.responses).map some := by
    have h := collectFailed_eq response.responses (collectTokens registry) [] [] hlen.symm
    simpa using h
  have hfl := failedAt_length response.responses (collectTokens registry) hlen.symm
  have hdel := batchDeletes_some (failedAt (collectTokens registry) response.responses)
    (fun t ht =>
      have hmem := failedAt_subset (collectTokens registry) response.responses t ht
      ⟨((mem_collectTokens registry t).mp hmem).1, hslash t hmem⟩)
  by_cases hpos : response.failureCount > 0
  · have hne : failedAt (collectTokens registry) response.responses ≠ [] := by
      intro h
      rw [h] at hfl
      rw [hcount, ← hfl] at hpos
      simp at hpos
    have hlpos : (failedAt (collectTokens registry) response.responses).length > 0 :=
      List.length_pos.mpr hne
    simp [notifyDevices, hreg, hlen0, hsend, hpos, hfail, hdel, hlpos, hne, commitDeletes]
  · have hnil : failedAt (collectTokens registry) response.responses = [] := by
      apply List.length_eq_zero.mp
      rw [hfl, ← hcount]
      omega
    simp [notifyDevices, hreg, hlen0, hsend, hpos, hnil]

/-- What `keyedDoc` says of a document. -/
theorem keyedDoc_spec (doc : TokenDoc) (h : keyedDoc doc = true) :
    doc.id ≠ "" ∧ '/' ∉ doc.id.data ∧
      ∀ t, doc.token = some t → t ≠ "" → doc.id = t := by
  unfold keyedDoc at h
  rw [Bool.and_eq_true] at h
  obtain ⟨h1, h2⟩ := h
  have h1 := of_decide_eq_true h1
  refine ⟨h1.1, h1.2, fun t ht hne => ?_⟩
  rw [ht] at h2
  rcases of_decide_eq_true h2 with h | h
  · exact absurd h hne
  · exact h

/-- In a registry keyed by token, a targeted token is the identifier of its document and
holds no slash. -/
theorem token_of_keyed (registry : List TokenDoc) (hkey : KeyedByToken registry)
    (t : String) (ht : t ∈ collectTokens registry) :
    '/' ∉ t.data ∧ ∃ doc ∈ registry, doc.token = some t ∧ doc.id = t := by
  obtain ⟨hne, doc, hdoc, htok⟩ := (mem_collectTokens registry t).mp ht
  obtain ⟨_, hslash, hid⟩ := keyedDoc_spec doc (hkey.1 doc hdoc)
  have hidt := hid t htok hne
  refine ⟨?_, doc, hdoc, htok, hidt⟩
  rw [← hidt]
  exact hslash

/-- In a registry keyed by token, no token is targeted twice. -/
theorem collectTokens_nodup (registry : List TokenDoc) (hkey : KeyedByToken registry) :
    (collectTokens registry).Nodup := by
  induction registry with
  | nil => simp [collectTokens]
  | cons doc rest ih =>
    have hrest : KeyedByToken rest :=
      ⟨fun d hd => hkey.1 d (List.mem_cons_of_mem _ hd),
        (List.nodup_cons.mp (by simpa using hkey.2)).2⟩
    have hnotin : doc.id ∉ rest.map TokenDoc.id :=
      (List.nodup_cons.mp (by simpa using hkey.2)).1
    have hspec := keyedDoc_spec doc (hkey.1 doc (List.mem_cons_self _ _))
    unfold collectTokens
    cases htok : doc.token with
    | none => exact ih hrest
    | some token =>
      by_cases hne : token = ""
      · simp only [hne, ne_eq, not_true_eq_false, ↓reduceIte]
        exact ih hrest
      · simp only [ne_eq, hne, not_false_eq_true, ↓reduceIte]
        refine List.nodup_cons.mpr ⟨?_, ih hrest⟩
        intro hmem
        obtain ⟨_, d, hd, _, hdid⟩ := token_of_keyed rest hrest token hmem
        apply hnotin
        rw [hspec.2.2 token htok hne]
        exact List.mem_map.mpr ⟨d, hd, hdid⟩

/-- A list without repetition pairs each of its entries with one partner only. -/
theorem zip_partner_unique {α β : Type} :
    ∀ (l : List α) (l2 : List β), l.Nodup → ∀ (a : α) (b c : β),
      (a, b) ∈ l.zip l2 → (a, c) ∈ l.zip l2 → b = c := by
  intro l
  induction l with
  | nil =>
    intro l2 _ a b c hb
    simp at hb
  | cons x xs ih =>
    intro l2 hnd a b c hb hc
    cases l2 with
    | nil => simp at hb
    | cons y ys =>
      obtain ⟨hx, hxs⟩ := List.nodup_cons.mp hnd
      rw [List.zip_cons_cons, List.mem_cons] at hb hc
      rcases hb with hb | hb
      · rcases hc with hc | hc
        · rw [Prod.mk.injEq] at hb hc
          rw [hb.2, hc.2]
        · rw [Prod.mk.injEq] at hb
          exact absurd (hb.1 ▸ (List.of_mem_zip hc).1) hx
      · rcases hc with hc | hc
        · rw [Prod.mk.injEq] at hc
          exact absurd (hc.1 ▸ (List.of_mem_zip hb).1) hx
        · exact ih ys hxs a b c hb hc

/-- Claim C10: in a registry keyed by token, when the handler reaches the multicast with
a non-empty list of targeted tokens, and the transport answers with one result per token,
in order, a failure count counting the failed results, and a permanently-invalid code on
every failed result, then the handler returns the success and failure counts of the
transport, commits one batch deleting the documents of the tokens at the positions of the
failed results, in token order (no batch when no result failed), and the registry
afterwards is the registry, in its order, without the registrations of those tokens:
the registration of every token with a failed result is gone, and the registration of
every token with a successful result is still there. -/
theorem failed_tokens_removed (toLowerCase : String → String)
    (sendMulticast : MulticastMessage → Except JsError BatchResponse)
    (orderId : String) (before after : Option OrderData) (registry : List TokenDoc)
    (n : Notification) (response : BatchResponse)
    (hcls : classify toLowerCase orderId before after = .ok (some n))
    (hkey : KeyedByToken registry)
    (htok : collectTokens registry ≠ [])
    (hsend : sendMulticast (buildMessage n (collectTokens registry)) = .ok response)
    (hlen : response.responses.length = (collectTokens registry).length)
    (hcount : response.failureCount
      = (response.responses.filter (fun r => !r.success)).length)
    (_hperm : ∀ r ∈ response.responses, r.success = false →
      r.errorCode = some "messaging/registration-token-not-registered" ∨
        r.errorCode = some "messaging/invalid-registration-token") :
    (onOrderCreatedOrUpdated toLowerCase sendMulticast orderId before after registry).result
        = .ok (.report response.successCount response.failureCount) ∧
      (onOrderCreatedOrUpdated toLowerCase sendMulticast orderId before after
        registry).registry
        = registry.filter
            (fun doc => doc.token ∉
              (failedAt (collectTokens registry) response.responses).map some) ∧
      (onOrderCreatedOrUpdated toLowerCase sendMulticast orderId before after
        registry).effects
        = [.registryRead, .sendMulticast (buildMessage n (collectTokens registry))]
          ++ (if failedAt (collectTokens registry) response.responses = [] then []
              else [.batchCommit
                ((failedAt (collectTokens registry) response.responses).map
                  (fun t => [t]))]) ∧
      (∀ t r, (t, r) ∈ (collectTokens registry).zip response.responses →
        r.success = false →
        ∀ doc ∈ (onOrderCreatedOrUpdated toLowerCase sendMulticast orderId before after
          registry).registry, doc.token ≠ some t) ∧
      (∀ t r, (t, r) ∈ (collectTokens registry).zip response.responses →
        r.success = true →
        ∃ doc ∈ (onOrderCreatedOrUpdated toLowerCase sendMulticast orderId before after
          registry).registry, doc.token = some t) := by
  have hslash : ∀ t ∈ collectTokens registry, '/' ∉ t.data :=
    fun t ht => (token_of_keyed registry hkey t ht).1
  have h := notifyDevices_run sendMulticast n registry response htok hslash hsend hlen
    hcount
  have hrun : onOrderCreatedOrUpdated toLowerCase sendMulticast orderId before after
      registry = notifyDevices sendMulticast n registry := by
    simp [onOrderCreatedOrUpdated, hcls]
  have hsub := failedAt_subset (collectTokens registry) response.responses
  have hfilter : registry.filter
        (fun doc => doc.id ∉ failedAt (collectTokens registry) response.responses)
      = registry.filter
        (fun doc => doc.token ∉
          (failedAt (collectTokens registry) response.responses).map some) := by
    apply List.filter_congr
    intro doc hdoc
    have hiff : doc.id ∈ failedAt (collectTokens registry) response.responses ↔
        doc.token ∈ (failedAt (collectTokens registry) response.responses).map some := by
      constructor
      · intro hid
        obtain ⟨_, d, hd, hdtok, hdid⟩ :=
          token_of_keyed registry hkey doc.id (hsub doc.id hid)
        have hdd : d = doc := List.inj_on_of_nodup_map hkey.2 hd hdoc hdid
        rw [← hdd, hdtok]
        exact List.mem_map.mpr ⟨doc.id, hid, rfl⟩
      · intro htk
        obtain ⟨t, ht, htd⟩ := List.mem_map.mp htk
        have hne := ((mem_collectTokens registry t).mp (hsub t ht)).1
        rw [(keyedDoc_spec doc (hkey.1 doc hdoc)).2.2 t htd.symm hne]
        exact ht
    simp only [hiff]
  rw [hrun, h.1, h.2.1, h.2.2, hfilter]
  refine ⟨rfl, rfl, rfl, ?_, ?_⟩
  · intro t r hzip hfailed doc hdoc heq
    have hmem : t ∈ failedAt (collectTokens registry) response.responses := by
      simp only [failedAt, List.mem_map, List.mem_filter]
      exact ⟨(t, r), ⟨hzip, by simp [hfailed]⟩, rfl⟩
    have hnot := (List.mem_filter.mp hdoc).2
    simp only [decide_eq_true_eq] at hnot
    exact hnot (heq ▸ List.mem_map.mpr ⟨t, hmem, rfl⟩)
  · intro t r hzip hok
    have hnot : t ∉ failedAt (collectTokens registry) response.responses := by
      intro hmem
      simp only [failedAt, List.mem_map, List.mem_filter] at hmem
      obtain ⟨⟨t2, r2⟩, ⟨hz2, hf2⟩, ht2⟩ := hmem
      simp only at ht2
      subst ht2
      have hrr := zip_partner_unique (collectTokens registry) response.responses
        (collectTokens_nodup registry hkey) t2 r r2 hzip hz2
      rw [← hrr, hok] at hf2
      simp at hf2
    obtain ⟨_, doc, hdoc, hdtok, _⟩ :=
      token_of_keyed registry hkey t (List.of_mem_zip hzip).1
    refine ⟨doc, List.mem_filter.mpr ⟨hdoc, ?_⟩, hdtok⟩
    simp only [decide_eq_true_eq, hdtok, List.mem_map, Option.some.injEq, exists_eq_right]
    exact hnot

/-- Witness for claim C10, scenario E: three tokens, the second one reported as not
registered.  The counts are 2 and 1 and exactly the second token is removed. -/
theorem failed_tokens_removed_witness :
    KeyedByToken sampleRegistry ∧
      (onOrderCreatedOrUpdated asciiToLowerCase
        (secondFails "messaging/registration-token-not-registered") "o1" none
        (some (sampleOrder (.string "NotReceived"))) sampleRegistry).result
        = .ok (.report 2 1) ∧
      (onOrderCreatedOrUpdated asciiToLowerCase
        (secondFails "messaging/registration-token-not-registered") "o1" none
        (some (sampleOrder (.string "NotReceived"))) sampleRegistry).registry
        = [{ id := "tokA", token := some "tokA" }, { id := "tokC", token := some "tokC" }] ∧
      (onOrderCreatedOrUpdated asciiToLowerCase
        (secondFails "messaging/registration-token-not-registered") "o1" none
        (some (sampleOrder (.string "NotReceived"))) sampleRegistry).effects
        = [.registryRead,
           .sendMulticast
             { title := "🆕 New Order Created", body := "Order 42 for Alice - 3 items",
               orderId := "o1", orderNumber := .string "42", type := "new_order",
               tokens := ["tokA", "tokB", "tokC"] },
           .batchCommit [["tokB"]]] :=
  have h := failed_tokens_removed asciiToLowerCase
    (secondFails "messaging/registration-token-not-registered") "o1" none
    (some (sampleOrder (.string "NotReceived"))) sampleRegistry
    { title := "🆕 New Order Created", body := "Order 42 for Alice - 3 items",
      notificationData := { orderId := "o1", orderNumber := .string "42", type := "new_order" } }
    { responses :=
        [{ success := true, errorCode := none },
         { success := false, errorCode := some "messaging/registration-token-not-registered" },
         { success := true, errorCode := none }],
      successCount := 2, failureCount := 1 }
    rfl ⟨by decide, by decide⟩ (by decide) rfl rfl rfl (by decide)
  ⟨⟨by decide, by decide⟩, h.1, h.2.1, h.2.2.1⟩

/-- Claim C10, counterexample: in a registry that is not keyed by token, where the
document stored under `tokB` holds the delivered token `tokX` and the failed token `tokB`
is held by the document `d3`, the handler deletes the registration of the delivered
token and keeps the one of the failed token; and when the failed token is `a/b`, which
names no document, the handler ends with an error, returns no counts and removes
nothing. -/
theorem removal_goes_by_document_identifier :
    collectTokens unkeyedRegistry = ["tokA", "tokX", "tokB"] ∧
      (onOrderCreatedOrUpdated asciiToLowerCase thirdFails "o1" none
        (some (sampleOrder (.string "NotReceived"))) unkeyedRegistry).effects
        = [.registryRead,
           .sendMulticast
             { title := "🆕 New Order Created", body := "Order 42 for Alice - 3 items",
               orderId := "o1", orderNumber := .string "42", type := "new_order",
               tokens := ["tokA", "tokX", "tokB"] },
           .batchCommit [["tokB"]]] ∧
      (onOrderCreatedOrUpdated asciiToLowerCase thirdFails "o1" none
        (some (sampleOrder (.string "NotReceived"))) unkeyedRegistry).registry
        = [{ id := "d1", token := some "tokA" }, { id := "d3", token := some "tokB" }] ∧
      (onOrderCreatedOrUpdated asciiToLowerCase
        (secondFails "messaging/registration-token-not-registered") "o1" none
        (some (sampleOrder (.string "NotReceived"))) slashRegistry).result
        = .error .invalidDocumentPath ∧
      (onOrderCreatedOrUpdated asciiToLowerCase
        (secondFails "messaging/registration-token-not-registered") "o1" none
        (some (sampleOrder (.string "NotReceived"))) slashRegistry).registry
        = slashRegistry :=
  ⟨by decide, rfl, rfl, rfl, rfl⟩

/-- Claim C1, the code at the failing input: three registered tokens, the second one
failing with the transient code `messaging/internal-error`, which is not one of the two
invalid-token codes.  The handler commits a batch deleting the second token, and its
registration is gone from the registry afterwards. -/
theorem transient_failure_removes_token :
    isInvalidTokenCode (some "messaging/internal-error") = false ∧
      (onOrderCreatedOrUpdated asciiToLowerCase (secondFails "messaging/internal-error")
        "o1" none (some (sampleOrder (.string "NotReceived"))) sampleRegistry).effects
        = [.registryRead,
           .sendMulticast
             { title := "🆕 New Order Created", body := "Order 42 for Alice - 3 items",
               orderId := "o1", orderNumber := .string "42", type := "new_order",
               tokens := ["tokA", "tokB", "tokC"] },
           .batchCommit [["tokB"]]] ∧
      (onOrderCreatedOrUpdated asciiToLowerCase (secondFails "messaging/internal-error")
        "o1" none (some (sampleOrder (.string "NotReceived"))) sampleRegistry).registry
        = [{ id := "tokA", token := some "tokA" }, { id := "tokC", token := some "tokC" }] :=
  ⟨by decide, rfl, rfl⟩

/-! ## The daily sweep -/

/-- The state after the loop of lines 164-181: every document of the snapshot has been
probed, and the rejected ones are queued and counted. -/
theorem sweepLoop_eq (send : Nat → ProbeMessage → ProbeOutcome) :
    ∀ (docs : List TokenDoc) (st : SweepState),
      sweepLoop send docs st
        = { probes := st.probes
              ++ docs.map (fun doc => { check := "valid", token := doc.token })
            batch := st.batch
              ++ (rejectedFrom send st.probes.length docs).map (fun id => [id])
            deleteCount := st.deleteCount
              + (rejectedFrom send st.probes.length docs).length } := by
  intro docs
  induction docs with
  | nil =>
    intro st
    simp [sweepLoop, rejectedFrom]
  | cons doc rest ih =>
    intro st
    rw [sweepLoop, ih]
    cases hs : send st.probes.length { check := "valid", token := doc.token } with
    | delivered =>
      simp [sweepStep, probeMessage, hs, rejectedFrom, List.enumFrom, List.filter,
        probeRejected]
    | threw code =>
      by_cases hc : code = some "messaging/invalid-registration-token" ∨
          code = some "messaging/registration-token-not-registered"
      · have hcode : isInvalidTokenCode code = true := by
          simpa [isInvalidTokenCode] using hc
        simp [sweepStep, probeMessage, hs, hcode, hc, rejectedFrom, List.enumFrom,
          List.filter, probeRejected]
        omega
      · have hcode : isInvalidTokenCode code = false := by
          simpa [isInvalidTokenCode] using hc
        simp [sweepStep, probeMessage, hs, hcode, hc, rejectedFrom, List.enumFrom,
          List.filter, probeRejected]

/-- Claim C9: for every registry snapshot and every probe transport, `cleanupExpiredTokens`
reads the registry, probes every document of the snapshot in order with a message holding
`check: valid` and the token of the document (whatever the outcome of the earlier
probes), queues for deletion exactly the registrations whose probe was rejected with
`messaging/invalid-registration-token` or `messaging/registration-token-not-registered`,
returns their number as `cleaned`, and commits the batch only when that number is above
zero; for an empty registry it returns 0 and issues no probe.  On the sample registry of
five registrations, whose probes are delivered, rejected as not registered, rejected with
a transient code, rejected as invalid and rejected without a code, all five are probed
and exactly the second and the fourth are deleted. -/
theorem sweep_probes_all_and_removes_rejected (send : Nat → ProbeMessage → ProbeOutcome)
    (registry : List TokenDoc) :
    (cleanupExpiredTokens send registry).effects
        = Effect.registryRead
          :: registry.map (fun doc => Effect.send { check := "valid", token := doc.token })
          ++ (if (rejectedFrom send 0 registry).length > 0
              then [.batchCommit ((rejectedFrom send 0 registry).map (fun id => [id]))]
              else []) ∧
      (cleanupExpiredTokens send registry).cleaned = (rejectedFrom send 0 registry).length ∧
      (cleanupExpiredTokens send registry).registry
        = registry.filter (fun doc => doc.id ∉ rejectedFrom send 0 registry) ∧
      (cleanupExpiredTokens send []).cleaned = 0 ∧
      (cleanupExpiredTokens send []).effects = [.registryRead] ∧
      cleanupExpiredTokens sampleProbe sampleSweepRegistry
        = { effects :=
              [.registryRead, .send { check := "valid", token := some "tokA" },
               .send { check := "valid", token := some "tokB" },
               .send { check := "valid", token := some "tokC" },
               .send { check := "valid", token := some "tokD" },
               .send { check := "valid", token := none },
               .batchCommit [["d1"], ["d3"]]],
            registry :=
              [{ id := "d0", token := some "tokA" }, { id := "d2", token := some "tokC" },
               { id := "d4", token := none }],
            cleaned := 2 } := by
  have h := sweepLoop_eq send registry { probes := [], batch := [], deleteCount := 0 }
  simp only [List.nil_append, List.length_nil, Nat.zero_add] at h
  refine ⟨?_, ?_, ?_, rfl, rfl, by decide⟩
  · unfold cleanupExpiredTokens
    rw [h]
    by_cases hpos : (rejectedFrom send 0 registry).length > 0
    · simp [hpos]
    · simp [hpos]
  · unfold cleanupExpiredTokens
    rw [h]
    by_cases hpos : (rejectedFrom send 0 registry).length > 0
    · simp [hpos]
    · simp [hpos]
  · unfold cleanupExpiredTokens
    rw [h]
    by_cases hpos : (rejectedFrom send 0 registry).length > 0
    · simp [hpos, commitDeletes]
    · have hnil : rejectedFrom send 0 registry = [] := by
        apply List.length_eq_zero.mp
        omega
      simp [hnil]

end OrderNotifications
